import Mathlib

/-!
Verification of the OpenSearch index-retention script (`src/backuper/backuperV6.py`).

The script has two entry points:

* `list_backup_delete_old_indices` — classify stale indices, gate on disk usage,
  then per index: create a snapshot, poll its status up to `snapshot_max_retries`
  times, delete the index on snapshot success, and re-check disk usage.
* `list_delete_old_indices` — classify stale indices and delete each directly.

The embedding models the external world (cluster client and disk monitor) as an
explicit environment record, and every effectful call the script makes as an
`Event` in a trace, so that the safety properties ("the index is not deleted",
"zero snapshot calls", ...) are statements about the trace.

Modelling conventions:
* `datetime` values are integers counting seconds; a parsed index date
  `datetime(y, m, d)` (midnight) is `86400 * daysFromCivil y m d` on the
  proleptic Gregorian day scale, and `current_date` is an arbitrary integer on
  the same scale.  `timedelta.days` is floor division by 86400, which is
  `Int.fdiv`.  (Python works at microsecond granularity; the claims are stated
  at whole-day boundaries, so second granularity is a faithful abstraction.)
* `strptime(s, "%Y.%m.%d")` follows CPython's `_strptime` pattern: `%Y`
  matches exactly four digits, `%m` one or two digits with value 1..12,
  `%d` one or two digits with value 1..31 or a space followed by a nonzero
  digit, joined by literal dots and anchored at both ends; the numbers must
  then form a valid `datetime` date (year at least 1 — `MINYEAR`; day
  bounded by the month length).  Digits are modelled as ASCII digits.
* Exceptions raised by the cluster client are values of `ExcKind`; a call that
  may raise is modelled as returning `Except ExcKind _`.  An orchestrator run
  returns its event trace together with `Option ExcKind`: `some k` means an
  exception of kind `k` escaped the batch logic to the handlers at the function
  boundary (the boundary that prints it and would convert it to a process
  exit); `none` means nothing escaped.
* Wall-clock sleeping (`time.sleep(snapshot_retry_interval)`) is recorded as a
  `snapSleep` event; the real-time duration itself is not modelled.
-/

namespace Backuper

/-- Exception kinds distinguished by the script's `except` clauses:
`OpenSearchExceptions.ConnectionError`, `AuthorizationException`,
`RequestError`, and the catch-all `Exception`. -/
inductive ExcKind where
  | connectionError
  | authorizationException
  | requestError
  | otherError
deriving DecidableEq

/-- One observable effectful call made by the script: a `check_disk_space`
sample, a `snapshot.create` call, a `snapshot.status` poll (with its poll
number for that snapshot), a `time.sleep` between polls, or an
`indices.delete` call. -/
inductive Event where
  | checkDisk (usedPercent : Rat)
  | snapCreate (indexName : String)
  | snapPoll (indexName : String) (pollNum : Nat)
  | snapSleep (indexName : String)
  | deleteIndex (indexName : String)
deriving DecidableEq

/-- The external world as seen by one run: the result of
`indices.get_alias("*")` (the index names in dictionary order), the successive
`check_disk_space` samples (indexed by sample number), and, keyed by index
name, the outcome of `snapshot.create`, the state string reported by the n-th
`snapshot.status` poll, and the outcome of `indices.delete`. -/
structure ClusterEnv where
  getAlias : Except ExcKind (List String)
  diskSample : Nat → Rat
  createSnap : String → Except ExcKind Unit
  snapState : String → Nat → String
  deleteIdx : String → Except ExcKind Unit

/-! ### Date parsing: `index_name.rsplit("-", 1)[-1]` and `strptime "%Y.%m.%d"` -/

/-- A parsed calendar date. -/
structure CivilDate where
  year : Nat
  month : Nat
  day : Nat
deriving DecidableEq

/-- `index_name.rsplit("-", 1)[-1]`: the substring after the last `-`
(the whole string when no `-` occurs). -/
def lastToken (s : String) : String :=
  String.mk ((s.toList.reverse.takeWhile (fun c => c ≠ '-')).reverse)

/-- Split a character list at every `.` (the separator structure of the
`%Y.%m.%d` pattern; dots cannot occur inside the digit runs, so matching
the anchored regex is equivalent to splitting at dots). -/
def splitOnDot : List Char → List (List Char)
  | [] => [[]]
  | c :: cs =>
    if c = '.' then [] :: splitOnDot cs
    else
      match splitOnDot cs with
      | [] => [[c]]
      | t :: ts => (c :: t) :: ts

/-- Digit-string to number, as Python `int` on an ASCII digit string. -/
def natOfDigits (cs : List Char) : Nat :=
  cs.foldl (fun a c => a * 10 + (c.toNat - 48)) 0

/-- Gregorian leap-year test (as `calendar.isleap`, used by `datetime`). -/
def isLeapYear (y : Nat) : Bool :=
  y % 4 == 0 && (y % 100 != 0 || y % 400 == 0)

/-- Number of days in a month of the proleptic Gregorian calendar. -/
def daysInMonth (y m : Nat) : Nat :=
  if m = 2 then (if isLeapYear y then 29 else 28)
  else if m = 4 ∨ m = 6 ∨ m = 9 ∨ m = 11 then 30
  else 31

/-- The `%Y` fragment of CPython `strptime`: exactly four digits
(the pattern is four repetitions of a digit class, no shorter year
matches). -/
def yearValue? (cs : List Char) : Option Nat :=
  if cs.length = 4 && cs.all Char.isDigit then some (natOfDigits cs)
  else none

/-- The `%m` fragment of CPython `strptime`: the alternatives
`1[0-2]`, `0[1-9]`, `[1-9]` — one or two digits whose value is 1..12. -/
def monthValue? (cs : List Char) : Option Nat :=
  if 1 ≤ cs.length && cs.length ≤ 2 && cs.all Char.isDigit then
    let m := natOfDigits cs
    if 1 ≤ m ∧ m ≤ 12 then some m else none
  else none

/-- The `%d` fragment of CPython `strptime`: the alternatives
`3[01]`, `[12]` then a digit, `0[1-9]`, `[1-9]`, or a space then `[1-9]` —
one or two digits whose value is 1..31, or a space followed by a nonzero
digit. -/
def dayValue? (cs : List Char) : Option Nat :=
  if 1 ≤ cs.length && cs.length ≤ 2 && cs.all Char.isDigit then
    let d := natOfDigits cs
    if 1 ≤ d ∧ d ≤ 31 then some d else none
  else
    match cs with
    | [' ', c] =>
      if c.isDigit && c ≠ '0' then some (c.toNat - 48) else none
    | _ => none

/-- `datetime.strptime(s, "%Y.%m.%d")`: the whole string must be a `%Y`
match, a `%m` match and a `%d` match separated by literal dots (no fragment
can contain a dot, so the anchored regex match is exactly this split), and
the numbers must survive the `datetime` constructor (`MINYEAR = 1`;
`MAXYEAR = 9999` is implied by four digits; the day must fit the month).
Returns `none` exactly when Python raises `ValueError`. -/
def parseDateToken (s : String) : Option CivilDate :=
  match splitOnDot s.toList with
  | [ys, ms, ds] =>
    match yearValue? ys, monthValue? ms, dayValue? ds with
    | some y, some m, some d =>
      if 1 ≤ y ∧ d ≤ daysInMonth y m then some ⟨y, m, d⟩
      else none
    | _, _, _ => none
  | _ => none

/-- Days from 1970-01-01 to the given proleptic Gregorian date (the standard
civil-from-days inverse); the linear day scale underlying `datetime`
subtraction and ordering. -/
def daysFromCivil (dt : CivilDate) : Int :=
  let y : Int := if dt.month ≤ 2 then (dt.year : Int) - 1 else (dt.year : Int)
  let m : Int := (dt.month : Int)
  let d : Int := (dt.day : Int)
  let era : Int := Int.fdiv y 400
  let yoe : Int := y - era * 400
  let doy : Int := Int.fdiv (153 * (if 2 < m then m - 3 else m + 9) + 2) 5 + d - 1
  let doe : Int := yoe * 365 + Int.fdiv yoe 4 - Int.fdiv yoe 100 + doy
  era * 146097 + doe - 719468

/-- The `datetime(y, m, d)` value (midnight) on the seconds scale. -/
def dateSeconds (dt : CivilDate) : Int :=
  86400 * daysFromCivil dt

/-- `(current_date - creation_date).days`: `timedelta.days` is the floor of
the difference divided by one day. -/
def timedeltaDays (now creation : Int) : Int :=
  Int.fdiv (now - creation) 86400

/-! ### The stale-index classifier (inlined twice in the script) -/

/-- One step of `old_indices.sort(key=lambda x: x[1])`: insert a pair into an
already sorted list, before the first entry whose date is not smaller
(Python `list.sort` is stable; stable-insertion sort computes the same
list as Timsort for the same key). -/
def insertByDate (a : String × Int) : List (String × Int) → List (String × Int)
  | [] => [a]
  | b :: l => if a.2 ≤ b.2 then a :: b :: l else b :: insertByDate a l

/-- Sort pairs ascending by their date component (`key=lambda x: x[1]`). -/
def sortByDate : List (String × Int) → List (String × Int)
  | [] => []
  | a :: l => insertByDate a (sortByDate l)

/-- Lines 54–66 of `list_backup_delete_old_indices`: for each index name,
take the trailing `-`-delimited token, try to parse it as `%Y.%m.%d`;
keep `(index_name, creation_date)` when
`(current_date - creation_date).days > redundancy_period_days`
(silently skipping names whose token does not parse), then sort the
survivors ascending by creation date. -/
def old_indices_backup_delete (names : List String) (now : Int)
    (redundancy_period_days : Int) : List (String × Int) :=
  sortByDate (names.filterMap (fun index_name =>
    match parseDateToken (lastToken index_name) with
    | some dt =>
      if redundancy_period_days < timedeltaDays now (dateSeconds dt) then
        some (index_name, dateSeconds dt)
      else none
    | none => none))

/-- Lines 157–169 of `list_delete_old_indices`: textually the same
classification loop and sort as in the backup-and-delete function. -/
def old_indices_delete (names : List String) (now : Int)
    (days : Int) : List (String × Int) :=
  sortByDate (names.filterMap (fun index_name =>
    match parseDateToken (lastToken index_name) with
    | some dt =>
      if days < timedeltaDays now (dateSeconds dt) then
        some (index_name, dateSeconds dt)
      else none
    | none => none))

/-! ### The snapshot wait loop (lines 98–115) -/

/-- Result of the `while retries < snapshot_max_retries` poll loop:
`success` when a poll reported `SUCCESS` (the loop breaks with
`retries < snapshot_max_retries`), `failed st` when a poll reported
`FAILED` or `PARTIAL` (the loop raises, caught by the per-index handler),
`timedOut` when the budget is exhausted
(`retries >= snapshot_max_retries` after the loop). -/
inductive WaitResult where
  | success
  | failed (state : String)
  | timedOut
deriving DecidableEq

/-- The poll loop with `remaining` iterations left and `k` polls already
performed: poll the status; on `SUCCESS` break, on `FAILED`/`PARTIAL`
raise, otherwise sleep and go round again. Returns the loop outcome and
the trace of poll/sleep events. -/
def waitLoop (st : Nat → String) (indexName : String) :
    Nat → Nat → WaitResult × List Event
  | 0, _ => (.timedOut, [])
  | remaining + 1, k =>
    let s := st k
    if s = "SUCCESS" then
      (.success, [.snapPoll indexName k])
    else if s = "FAILED" ∨ s = "PARTIAL" then
      (.failed s, [.snapPoll indexName k])
    else
      let r := waitLoop st indexName remaining (k + 1)
      (r.1, .snapPoll indexName k :: .snapSleep indexName :: r.2)

/-- The whole wait phase for one snapshot: `retries = 0; while retries <
snapshot_max_retries: ...`. -/
def waitSnapshot (st : Nat → String) (indexName : String)
    (snapshot_max_retries : Nat) : WaitResult × List Event :=
  waitLoop st indexName snapshot_max_retries 0

/-! ### Per-index processing in `backup_delete` mode (lines 80–131) -/

/-- The body of the `for index_name, creation_date in old_indices` loop:
issue `snapshot.create` (a `RequestError` or any other exception is caught by
the per-index handlers and the loop continues); on acknowledgment run the
wait loop; on `SUCCESS` issue `indices.delete` (a rejection is again caught
per-index); on a successful delete re-sample `check_disk_space` and, when the
sample exceeds the threshold, `return` from the whole function.

Returns the events of this iteration, the next disk-sample counter, and
whether the iteration executed the mid-batch `return` (aborting the batch). -/
def process_index (env : ClusterEnv) (snapshot_max_retries : Nat)
    (disk_usage_threshold : Rat) (diskCtr : Nat) (p : String × Int) :
    List Event × Nat × Bool :=
  let index_name := p.1
  match env.createSnap index_name with
  | .error _ => ([.snapCreate index_name], diskCtr, false)
  | .ok _ =>
    let w := waitSnapshot (env.snapState index_name) index_name
      snapshot_max_retries
    match w.1 with
    | .failed _ => (.snapCreate index_name :: w.2, diskCtr, false)
    | .timedOut => (.snapCreate index_name :: w.2, diskCtr, false)
    | .success =>
      match env.deleteIdx index_name with
      | .error _ =>
        (.snapCreate index_name :: w.2 ++ [.deleteIndex index_name],
          diskCtr, false)
      | .ok _ =>
        let d := env.diskSample diskCtr
        (.snapCreate index_name :: w.2 ++
            [.deleteIndex index_name, .checkDisk d],
          diskCtr + 1, disk_usage_threshold < d)

/-- The `for` loop over the sorted stale indices: run each iteration in
order, stopping (the mid-batch `return`) when an iteration reports the disk
threshold was exceeded after its delete. -/
def process_indices (env : ClusterEnv) (snapshot_max_retries : Nat)
    (disk_usage_threshold : Rat) :
    List (String × Int) → Nat → List Event
  | [], _ => []
  | p :: rest, diskCtr =>
    let r := process_index env snapshot_max_retries disk_usage_threshold
      diskCtr p
    if r.2.2 then r.1
    else r.1 ++ process_indices env snapshot_max_retries
      disk_usage_threshold rest r.2.1

/-- `list_backup_delete_old_indices` (lines 30–140): fetch the alias listing
(an exception here escapes the batch logic to the function-boundary
handlers, reported as `some kind`); classify and sort the stale indices;
sample `check_disk_space` and `return` immediately when it exceeds
`disk_usage_threshold`; otherwise run the per-index loop.  All per-index
exceptions are absorbed inside the loop, so an `.ok` alias listing always
yields `none` in the second component.  (`snapshot_retry_interval` only
determines the real-time length of each `snapSleep` event and is not a
parameter of the model; the snapshot name, derived from the index name and
the batch-start timestamp, is identified with the index name, which
determines it within one batch.) -/
def list_backup_delete_old_indices (env : ClusterEnv) (now : Int)
    (redundancy_period_days : Int) (disk_usage_threshold : Rat)
    (snapshot_max_retries : Nat) : List Event × Option ExcKind :=
  match env.getAlias with
  | .error e => ([], some e)
  | .ok names =>
    let old := old_indices_backup_delete names now redundancy_period_days
    let d0 := env.diskSample 0
    if disk_usage_threshold < d0 then
      ([.checkDisk d0], none)
    else
      (.checkDisk d0 ::
        process_indices env snapshot_max_retries disk_usage_threshold old 1,
        none)

/-- The `for` loop of `list_delete_old_indices` (lines 176–183): delete each
stale index in order; both `except` clauses only print and continue, so
every index in the list gets its `indices.delete` call. -/
def delete_indices_loop (env : ClusterEnv) :
    List (String × Int) → List Event
  | [] => []
  | p :: rest =>
    match env.deleteIdx p.1 with
    | .error _ => .deleteIndex p.1 :: delete_indices_loop env rest
    | .ok _ => .deleteIndex p.1 :: delete_indices_loop env rest

/-- `list_delete_old_indices` (lines 143–192): fetch the alias listing (an
exception escapes to the function-boundary handlers, reported as
`some kind`), classify and sort the stale indices, and delete them in
order. -/
def list_delete_old_indices (env : ClusterEnv) (now : Int) (days : Int) :
    List Event × Option ExcKind :=
  match env.getAlias with
  | .error e => ([], some e)
  | .ok names =>
    (delete_indices_loop env (old_indices_delete names now days), none)

/-! ### Observation helpers and sample environments -/

/-- The event trace produced when the polls starting at poll number `idx`
stay non-terminal for `j` rounds and the `j`-th poll is terminal: a poll and
a sleep for each non-terminal round, then the final poll with no sleep after
it. -/
def failTrace (nm : String) (idx : Nat) : Nat → List Event
  | 0 => [.snapPoll nm idx]
  | j + 1 => .snapPoll nm idx :: .snapSleep nm :: failTrace nm (idx + 1) j

/-- The names of the `snapshot.create` calls in a trace, in order. -/
def createdNames (evs : List Event) : List String :=
  evs.filterMap (fun e =>
    match e with
    | .snapCreate nm => some nm
    | _ => none)

/-- A per-index recoverable failure for index `nm`: the snapshot request was
rejected, the snapshot reached a failed/partial terminal state, polling
exhausted its retry budget, or the delete was rejected. -/
def perIndexFailure (env : ClusterEnv) (maxR : Nat) (nm : String) : Prop :=
  (∃ e, env.createSnap nm = Except.error e) ∨
  (env.createSnap nm = Except.ok () ∧
    ∃ s, (waitSnapshot (env.snapState nm) nm maxR).1 = WaitResult.failed s) ∨
  (env.createSnap nm = Except.ok () ∧
    (waitSnapshot (env.snapState nm) nm maxR).1 = WaitResult.timedOut) ∨
  (env.createSnap nm = Except.ok () ∧
    (waitSnapshot (env.snapState nm) nm maxR).1 = WaitResult.success ∧
    ∃ e, env.deleteIdx nm = Except.error e)

/-! ### Concrete environments for instantiating the theorems -/

/-- The sample batch timestamp 2024-01-01 00:00:00 on the seconds scale. -/
def demoNow : Int := 86400 * 19723

/-- A run whose only stale index gets its snapshot acknowledged but never
sees a terminal poll state. -/
def demoEnvTimeout : ClusterEnv where
  getAlias := Except.ok ["logs-2023.01.01"]
  diskSample := fun _ => 50
  createSnap := fun _ => Except.ok ()
  snapState := fun _ _ => "IN_PROGRESS"
  deleteIdx := fun _ => Except.ok ()

/-- A run whose first poll reports a partially failed snapshot. -/
def demoEnvPartial : ClusterEnv where
  getAlias := Except.ok ["logs-2023.01.01"]
  diskSample := fun _ => 50
  createSnap := fun _ => Except.ok ()
  snapState := fun _ _ => "PARTIAL"
  deleteIdx := fun _ => Except.ok ()

/-- A run where every snapshot-create request is rejected. -/
def demoEnvReject : ClusterEnv where
  getAlias := Except.ok ["logs-2023.01.01", "logs-2023.06.01"]
  diskSample := fun _ => 50
  createSnap := fun _ => Except.error ExcKind.requestError
  snapState := fun _ _ => "SUCCESS"
  deleteIdx := fun _ => Except.ok ()

/-- A run that starts with the disk already over a 90 percent threshold. -/
def demoEnvHighDisk : ClusterEnv where
  getAlias := Except.ok ["logs-2023.01.01"]
  diskSample := fun _ => 96
  createSnap := fun _ => Except.ok ()
  snapState := fun _ _ => "SUCCESS"
  deleteIdx := fun _ => Except.ok ()

/-- A run whose listing also contains an index without a date suffix. -/
def demoEnvMixed : ClusterEnv where
  getAlias := Except.ok ["logs-2023.01.01", "metrics-bad-name"]
  diskSample := fun _ => 50
  createSnap := fun _ => Except.ok ()
  snapState := fun _ _ => "SUCCESS"
  deleteIdx := fun _ => Except.ok ()

/-- A run where the cluster is unreachable. -/
def demoEnvDown : ClusterEnv where
  getAlias := Except.error ExcKind.connectionError
  diskSample := fun _ => 50
  createSnap := fun _ => Except.ok ()
  snapState := fun _ _ => "SUCCESS"
  deleteIdx := fun _ => Except.ok ()

/-! ### Lemmas about the sort and the classifier -/

theorem mem_insertByDate {x a : String × Int} :
    ∀ {l : List (String × Int)}, x ∈ insertByDate a l ↔ x = a ∨ x ∈ l
  | [] => by simp [insertByDate]
  | b :: l => by
    by_cases h : a.2 ≤ b.2
    · simp [insertByDate, h]
    · simp only [insertByDate, if_neg h, List.mem_cons,
        mem_insertByDate (l := l)]
      tauto

theorem pairwise_insertByDate {a : String × Int} :
    ∀ {l : List (String × Int)},
      l.Pairwise (fun x y => x.2 ≤ y.2) →
      (insertByDate a l).Pairwise (fun x y => x.2 ≤ y.2)
  | [], _ => by simp [insertByDate]
  | b :: l, h => by
    rw [List.pairwise_cons] at h
    by_cases hab : a.2 ≤ b.2
    · rw [insertByDate, if_pos hab, List.pairwise_cons]
      refine ⟨?_, List.pairwise_cons.2 h⟩
      intro y hy
      rcases List.mem_cons.1 hy with rfl | hy
      · exact hab
      · exact le_trans hab (h.1 y hy)
    · rw [insertByDate, if_neg hab, List.pairwise_cons]
      refine ⟨?_, pairwise_insertByDate h.2⟩
      intro y hy
      rcases mem_insertByDate.1 hy with rfl | hy
      · exact le_of_not_le hab
      · exact h.1 y hy

theorem pairwise_sortByDate :
    ∀ (l : List (String × Int)),
      (sortByDate l).Pairwise (fun x y => x.2 ≤ y.2)
  | [] => List.Pairwise.nil
  | _ :: l => pairwise_insertByDate (pairwise_sortByDate l)

theorem waitLoop_events (st : Nat → String) (nm : String) :
    ∀ (rem k : Nat) (e : Event), e ∈ (waitLoop st nm rem k).2 →
      (∃ j, e = Event.snapPoll nm j) ∨ e = Event.snapSleep nm := by
  intro rem
  induction rem with
  | zero => intro k e h; simp [waitLoop] at h
  | succ n ih =>
    intro k e h
    by_cases h1 : st k = "SUCCESS"
    · simp only [waitLoop, if_pos h1, List.mem_singleton] at h
      exact Or.inl ⟨k, h⟩
    · by_cases h2 : st k = "FAILED" ∨ st k = "PARTIAL"
      · simp only [waitLoop, if_neg h1, if_pos h2, List.mem_singleton] at h
        exact Or.inl ⟨k, h⟩
      · simp only [waitLoop, if_neg h1, if_neg h2, List.mem_cons] at h
        rcases h with rfl | rfl | h
        · exact Or.inl ⟨k, rfl⟩
        · exact Or.inr rfl
        · exact ih (k + 1) e h

theorem deleteIndex_not_mem_waitLoop {st : Nat → String}
    {nm' : String} {rem k : Nat} {nm : String} :
    Event.deleteIndex nm ∉ (waitLoop st nm' rem k).2 := by
  intro h
  rcases waitLoop_events st nm' rem k _ h with ⟨j, hj⟩ | hj <;> simp at hj

theorem snapCreate_not_mem_waitLoop {st : Nat → String}
    {nm' : String} {rem k : Nat} {nm : String} :
    Event.snapCreate nm ∉ (waitLoop st nm' rem k).2 := by
  intro h
  rcases waitLoop_events st nm' rem k _ h with ⟨j, hj⟩ | hj <;> simp at hj

theorem waitLoop_failed {st : Nat → String} {nm : String} :
    ∀ (j rem idx : Nat), j < rem →
      (∀ i, i < j → st (idx + i) ≠ "SUCCESS" ∧ st (idx + i) ≠ "FAILED" ∧
        st (idx + i) ≠ "PARTIAL") →
      (st (idx + j) = "FAILED" ∨ st (idx + j) = "PARTIAL") →
      waitLoop st nm rem idx =
        (WaitResult.failed (st (idx + j)), failTrace nm idx j) := by
  intro j
  induction j with
  | zero =>
    intro rem idx hrem hpre hterm
    obtain ⟨r, rfl⟩ : ∃ r, rem = r + 1 := ⟨rem - 1, by omega⟩
    rw [Nat.add_zero] at hterm
    have h1 : ¬ st idx = "SUCCESS" := by
      rcases hterm with h | h <;> rw [h] <;> decide
    rw [waitLoop]
    dsimp only
    rw [if_neg h1, if_pos hterm]
    rfl
  | succ n ih =>
    intro rem idx hrem hpre hterm
    obtain ⟨r, rfl⟩ : ∃ r, rem = r + 1 := ⟨rem - 1, by omega⟩
    have h0 := hpre 0 (Nat.succ_pos n)
    rw [Nat.add_zero] at h0
    have h2 : ¬ (st idx = "FAILED" ∨ st idx = "PARTIAL") := by
      rintro (h | h)
      · exact h0.2.1 h
      · exact h0.2.2 h
    have heq : idx + (n + 1) = (idx + 1) + n := by omega
    rw [heq] at hterm
    have hrec := ih r (idx + 1) (by omega)
      (fun i hi => by
        have hpi := hpre (i + 1) (by omega)
        have : idx + (i + 1) = (idx + 1) + i := by omega
        rwa [this] at hpi)
      hterm
    rw [waitLoop]
    dsimp only
    rw [if_neg h0.1, if_neg h2, hrec, heq]
    rfl

theorem waitSnapshot_zero (st : Nat → String) (nm : String) :
    waitSnapshot st nm 0 = (WaitResult.timedOut, []) := rfl

/-! ### Lemmas about per-index processing -/

theorem snapCreate_mem_process_index (env : ClusterEnv) (maxR : Nat)
    (dthr : Rat) (ctr : Nat) (p : String × Int) :
    Event.snapCreate p.1 ∈ (process_index env maxR dthr ctr p).1 := by
  rw [process_index]
  dsimp only
  cases hc : env.createSnap p.1 with
  | error e0 => simp
  | ok u =>
    dsimp only
    cases hw : (waitSnapshot (env.snapState p.1) p.1 maxR).1 with
    | success =>
      cases hd : env.deleteIdx p.1 with
      | error e0 => simp
      | ok u0 => simp
    | failed s => simp
    | timedOut => simp

theorem deleteIndex_mem_process_index {env : ClusterEnv} {maxR : Nat}
    {dthr : Rat} {ctr : Nat} {p : String × Int} {nm : String}
    (h : Event.deleteIndex nm ∈ (process_index env maxR dthr ctr p).1) :
    nm = p.1 ∧ env.createSnap p.1 = Except.ok () ∧
      (waitSnapshot (env.snapState p.1) p.1 maxR).1 = WaitResult.success := by
  revert h
  rw [process_index]
  dsimp only
  cases hc : env.createSnap p.1 with
  | error e0 =>
    intro h
    rw [List.mem_singleton] at h
    exact absurd h (by simp)
  | ok u =>
    dsimp only
    cases hw : (waitSnapshot (env.snapState p.1) p.1 maxR).1 with
    | success =>
      cases u
      cases hd : env.deleteIdx p.1 with
      | error e0 =>
        intro h
        simp only [List.mem_append, List.mem_cons, List.mem_singleton,
          List.not_mem_nil, or_false] at h
        rcases h with (h | h) | h
        · exact absurd h (by simp)
        · exact absurd h deleteIndex_not_mem_waitLoop
        · exact ⟨(Event.deleteIndex.inj h), rfl, rfl⟩
      | ok u0 =>
        intro h
        simp only [List.mem_append, List.mem_cons, List.mem_singleton,
          List.not_mem_nil, or_false] at h
        rcases h with (h | h) | (h | h)
        · exact absurd h (by simp)
        · exact absurd h deleteIndex_not_mem_waitLoop
        · exact ⟨(Event.deleteIndex.inj h), rfl, rfl⟩
        · exact absurd h (by simp)
    | failed s =>
      intro h
      rcases List.mem_cons.1 h with h | h
      · exact absurd h (by simp)
      · exact absurd h deleteIndex_not_mem_waitLoop
    | timedOut =>
      intro h
      rcases List.mem_cons.1 h with h | h
      · exact absurd h (by simp)
      · exact absurd h deleteIndex_not_mem_waitLoop

theorem deleteIndex_not_mem_process_indices {env : ClusterEnv} {maxR : Nat}
    {dthr : Rat} {nm : String}
    (hc : env.createSnap nm = Except.ok ())
    (hw : (waitSnapshot (env.snapState nm) nm maxR).1 = WaitResult.timedOut) :
    ∀ (l : List (String × Int)) (ctr : Nat),
      Event.deleteIndex nm ∉ process_indices env maxR dthr l ctr := by
  intro l
  induction l with
  | nil => intro ctr h; simp [process_indices] at h
  | cons p rest ih =>
    intro ctr h
    rw [process_indices] at h
    have hone : Event.deleteIndex nm ∉ (process_index env maxR dthr ctr p).1 := by
      intro hmem
      obtain ⟨rfl, hcp, hwp⟩ := deleteIndex_mem_process_index hmem
      rw [hwp] at hw
      exact WaitResult.noConfusion hw
    split at h
    · exact hone h
    · rcases List.mem_append.1 h with h1 | h2
      · exact hone h1
      · exact ih _ h2

theorem snapCreate_mem_process_indices_head (env : ClusterEnv) (maxR : Nat)
    (dthr : Rat) (ctr : Nat) (p : String × Int) (rest : List (String × Int)) :
    Event.snapCreate p.1 ∈ process_indices env maxR dthr (p :: rest) ctr := by
  rw [process_indices]
  split
  · exact snapCreate_mem_process_index env maxR dthr ctr p
  · exact List.mem_append_left _ (snapCreate_mem_process_index env maxR dthr ctr p)

theorem createdNames_snapCreate (nm : String) (evs : List Event) :
    createdNames (Event.snapCreate nm :: evs) = nm :: createdNames evs := rfl

theorem createdNames_snapPoll (nm : String) (j : Nat) (evs : List Event) :
    createdNames (Event.snapPoll nm j :: evs) = createdNames evs := rfl

theorem createdNames_snapSleep (nm : String) (evs : List Event) :
    createdNames (Event.snapSleep nm :: evs) = createdNames evs := rfl

theorem createdNames_append (a b : List Event) :
    createdNames (a ++ b) = createdNames a ++ createdNames b := by
  simp [createdNames]

theorem createdNames_waitLoop {st : Nat → String} {nm : String} :
    ∀ (rem k : Nat), createdNames (waitLoop st nm rem k).2 = [] := by
  intro rem
  induction rem with
  | zero => intro k; rfl
  | succ n ih =>
    intro k
    by_cases h1 : st k = "SUCCESS"
    · simp only [waitLoop, if_pos h1]; rfl
    · by_cases h2 : st k = "FAILED" ∨ st k = "PARTIAL"
      · simp only [waitLoop, if_neg h1, if_pos h2]; rfl
      · simp only [waitLoop, if_neg h1, if_neg h2]
        dsimp only [createdNames, List.filterMap]
        exact ih (k + 1)

theorem createdNames_waitSnapshot {st : Nat → String} {nm : String}
    {maxR : Nat} : createdNames (waitSnapshot st nm maxR).2 = [] :=
  createdNames_waitLoop maxR 0

theorem createdNames_process_index (env : ClusterEnv) (maxR : Nat)
    (dthr : Rat) (ctr : Nat) (p : String × Int) :
    createdNames (process_index env maxR dthr ctr p).1 = [p.1] := by
  rw [process_index]
  dsimp only
  cases hc : env.createSnap p.1 with
  | error e0 => rfl
  | ok u =>
    dsimp only
    cases hw : (waitSnapshot (env.snapState p.1) p.1 maxR).1 with
    | success =>
      cases hd : env.deleteIdx p.1 with
      | error e0 =>
        rw [createdNames_append, createdNames_snapCreate,
          createdNames_waitSnapshot]
        rfl
      | ok u0 =>
        rw [createdNames_append, createdNames_snapCreate,
          createdNames_waitSnapshot]
        rfl
    | failed s =>
      rw [createdNames_snapCreate, createdNames_waitSnapshot]
    | timedOut =>
      rw [createdNames_snapCreate, createdNames_waitSnapshot]

theorem createdNames_process_indices (env : ClusterEnv) (maxR : Nat)
    (dthr : Rat) :
    ∀ (l : List (String × Int)) (ctr : Nat),
      ∃ k, createdNames (process_indices env maxR dthr l ctr) =
        (l.map Prod.fst).take k := by
  intro l
  induction l with
  | nil => intro ctr; exact ⟨0, rfl⟩
  | cons p rest ih =>
    intro ctr
    rw [process_indices]
    split
    · refine ⟨1, ?_⟩
      rw [createdNames_process_index]
      rfl
    · obtain ⟨k, hk⟩ := ih (process_index env maxR dthr ctr p).2.1
      refine ⟨k + 1, ?_⟩
      rw [createdNames_append, createdNames_process_index, hk]
      rfl

theorem process_index_failure_no_abort {env : ClusterEnv} {maxR : Nat}
    {dthr : Rat} {ctr : Nat} {p : String × Int}
    (h : perIndexFailure env maxR p.1) :
    (process_index env maxR dthr ctr p).2 = (ctr, false) := by
  rw [process_index]
  dsimp only
  rcases h with ⟨e, he⟩ | ⟨hok, s, hw⟩ | ⟨hok, hw⟩ | ⟨hok, hw, e, hd⟩
  · rw [he]
  · rw [hok]; dsimp only; rw [hw]
  · rw [hok]; dsimp only; rw [hw]
  · rw [hok]; dsimp only; rw [hw]; dsimp only; rw [hd]

/-- The `delete`-mode loop issues exactly one delete call per stale index,
in order, whatever the delete outcomes are. -/
theorem delete_indices_loop_eq (env : ClusterEnv) :
    ∀ l : List (String × Int),
      delete_indices_loop env l = l.map (fun p => Event.deleteIndex p.1)
  | [] => rfl
  | p :: rest => by
    rw [delete_indices_loop]
    cases env.deleteIdx p.1 <;>
      simp [delete_indices_loop_eq env rest]

/-! ### Absorption at the function boundary -/

theorem backup_delete_snd_none {env : ClusterEnv} {now t : Int} {dthr : Rat}
    {maxR : Nat} {names : List String} (h : env.getAlias = Except.ok names) :
    (list_backup_delete_old_indices env now t dthr maxR).2 = none := by
  rw [list_backup_delete_old_indices, h]
  dsimp only
  split <;> rfl

theorem delete_snd_none {env : ClusterEnv} {now t : Int} {names : List String}
    (h : env.getAlias = Except.ok names) :
    (list_delete_old_indices env now t).2 = none := by
  rw [list_delete_old_indices, h]

theorem backup_delete_batch_error {env : ClusterEnv} {now t : Int}
    {dthr : Rat} {maxR : Nat} {e : ExcKind} (h : env.getAlias = Except.error e) :
    list_backup_delete_old_indices env now t dthr maxR = ([], some e) := by
  rw [list_backup_delete_old_indices, h]

theorem delete_batch_error {env : ClusterEnv} {now t : Int} {e : ExcKind}
    (h : env.getAlias = Except.error e) :
    list_delete_old_indices env now t = ([], some e) := by
  rw [list_delete_old_indices, h]

theorem process_index_zero_retries (env : ClusterEnv) (dthr : Rat)
    (ctr : Nat) (p : String × Int) :
    process_index env 0 dthr ctr p = ([Event.snapCreate p.1], ctr, false) := by
  rw [process_index]
  dsimp only
  cases hc : env.createSnap p.1 with
  | error e0 => rfl
  | ok u => rfl

theorem process_indices_zero_retries (env : ClusterEnv) (dthr : Rat) :
    ∀ (l : List (String × Int)) (ctr : Nat),
      process_indices env 0 dthr l ctr =
        l.map (fun p => Event.snapCreate p.1) := by
  intro l
  induction l with
  | nil => intro ctr; rfl
  | cons p rest ih =>
    intro ctr
    have hstep : process_indices env 0 dthr (p :: rest) ctr =
        [Event.snapCreate p.1] ++ process_indices env 0 dthr rest ctr := by
      rw [process_indices, process_index_zero_retries]
      rfl
    rw [hstep, ih]
    rfl

/-! ### The claims -/

/-- C1: in `backup_delete` mode, if snapshot creation for an index is
acknowledged but the poll loop exhausts its retry budget without observing a
`SUCCESS` state (outcome `timedOut`), then no `indices.delete` call is ever
issued for that index — the source index is retained. -/
theorem timeout_does_not_delete_source_index (env : ClusterEnv)
    (now t : Int) (dthr : Rat) (maxR : Nat) (nm : String)
    (hc : env.createSnap nm = Except.ok ())
    (hw : (waitSnapshot (env.snapState nm) nm maxR).1 = WaitResult.timedOut) :
    Event.deleteIndex nm ∉
      (list_backup_delete_old_indices env now t dthr maxR).1 := by
  rw [list_backup_delete_old_indices]
  cases env.getAlias with
  | error e => exact List.not_mem_nil _
  | ok names =>
    dsimp only
    split
    · intro h
      have h2 : Event.deleteIndex nm ∈
          [Event.checkDisk (env.diskSample 0)] := h
      rw [List.mem_singleton] at h2
      exact Event.noConfusion h2
    · intro h
      have h2 : Event.deleteIndex nm ∈ Event.checkDisk (env.diskSample 0) ::
          process_indices env maxR dthr
            (old_indices_backup_delete names now t) 1 := h
      rcases List.mem_cons.1 h2 with h3 | h3
      · exact Event.noConfusion h3
      · exact deleteIndex_not_mem_process_indices hc hw _ _ h3

/-- C1 (witness): a concrete run with one stale index, an acknowledged
snapshot and a poll budget of one that never observes a terminal state; the
index's delete call does not occur. -/
theorem timeout_does_not_delete_source_index_witness :
    demoEnvTimeout.createSnap "logs-2023.01.01" = Except.ok () ∧
    (waitSnapshot (demoEnvTimeout.snapState "logs-2023.01.01")
      "logs-2023.01.01" 1).1 = WaitResult.timedOut ∧
    Event.deleteIndex "logs-2023.01.01" ∉
      (list_backup_delete_old_indices demoEnvTimeout demoNow 90 90 1).1 :=
  ⟨rfl, rfl,
    timeout_does_not_delete_source_index demoEnvTimeout demoNow 90 90 1
      "logs-2023.01.01" rfl rfl⟩

/-- C3: in `backup_delete` mode, when the disk-usage sample taken before the
per-index loop strictly exceeds the threshold, the run's whole trace is that
single disk check: zero `snapshot.create` calls and zero `indices.delete`
calls are issued. -/
theorem disk_gate_prevents_snapshots_and_deletes (env : ClusterEnv)
    (now t : Int) (dthr : Rat) (maxR : Nat) (names : List String)
    (ha : env.getAlias = Except.ok names)
    (hd : dthr < env.diskSample 0) :
    (list_backup_delete_old_indices env now t dthr maxR).1 =
      [Event.checkDisk (env.diskSample 0)] ∧
    (∀ nm, Event.snapCreate nm ∉
      (list_backup_delete_old_indices env now t dthr maxR).1) ∧
    (∀ nm, Event.deleteIndex nm ∉
      (list_backup_delete_old_indices env now t dthr maxR).1) := by
  have htr : list_backup_delete_old_indices env now t dthr maxR =
      ([Event.checkDisk (env.diskSample 0)], none) := by
    rw [list_backup_delete_old_indices, ha]
    dsimp only
    rw [if_pos hd]
  rw [htr]
  refine ⟨rfl, ?_, ?_⟩ <;> intro nm <;> simp

/-- C3 (witness): with disk usage sampled at 96 percent against a threshold
of 90, a run with one stale index issues no snapshot and no delete calls. -/
theorem disk_gate_prevents_snapshots_and_deletes_witness :
    demoEnvHighDisk.getAlias = Except.ok ["logs-2023.01.01"] ∧
    (90 : Rat) < demoEnvHighDisk.diskSample 0 ∧
    ((list_backup_delete_old_indices demoEnvHighDisk demoNow 90 90 3).1 =
      [Event.checkDisk (demoEnvHighDisk.diskSample 0)] ∧
    (∀ nm, Event.snapCreate nm ∉
      (list_backup_delete_old_indices demoEnvHighDisk demoNow 90 90 3).1) ∧
    (∀ nm, Event.deleteIndex nm ∉
      (list_backup_delete_old_indices demoEnvHighDisk demoNow 90 90 3).1)) :=
  ⟨rfl, by decide,
    disk_gate_prevents_snapshots_and_deletes demoEnvHighDisk demoNow 90 90 3
      ["logs-2023.01.01"] rfl (by decide)⟩

/-- C4: per-index errors (snapshot request rejected, snapshot failed or
partial, polling timed out, delete rejected) are absorbed inside the
per-index loop and never escape the batch logic (`.2 = none` for every
environment whose listing succeeds, whatever the per-index outcomes),
while a batch-level exception from the listing call escapes the batch logic
to the function-boundary handlers (`.2 = some e`) before any per-index work
(the trace is empty). -/
theorem per_index_errors_absorbed_batch_errors_propagate
    (env1 env2 : ClusterEnv) (now1 t1 now2 t2 : Int) (dthr1 dthr2 : Rat)
    (maxR1 maxR2 : Nat) (names : List String) (e : ExcKind)
    (h1 : env1.getAlias = Except.ok names)
    (h2 : env2.getAlias = Except.error e) :
    (list_backup_delete_old_indices env1 now1 t1 dthr1 maxR1).2 = none ∧
    (list_delete_old_indices env1 now1 t1).2 = none ∧
    list_backup_delete_old_indices env2 now2 t2 dthr2 maxR2 = ([], some e) ∧
    list_delete_old_indices env2 now2 t2 = ([], some e) :=
  ⟨backup_delete_snd_none h1, delete_snd_none h1,
    backup_delete_batch_error h2, delete_batch_error h2⟩

/-- C4 (witness): a run full of per-index rejections still reports no
escaped exception, while a run whose listing raises a connection error
reports it with an empty trace. -/
theorem per_index_errors_absorbed_batch_errors_propagate_witness :
    demoEnvReject.getAlias =
      Except.ok ["logs-2023.01.01", "logs-2023.06.01"] ∧
    demoEnvDown.getAlias = Except.error ExcKind.connectionError ∧
    ((list_backup_delete_old_indices demoEnvReject demoNow 90 90 3).2 =
      none ∧
    (list_delete_old_indices demoEnvReject demoNow 90).2 = none ∧
    list_backup_delete_old_indices demoEnvDown demoNow 90 90 3 =
      ([], some ExcKind.connectionError) ∧
    list_delete_old_indices demoEnvDown demoNow 90 =
      ([], some ExcKind.connectionError)) :=
  ⟨rfl, rfl,
    per_index_errors_absorbed_batch_errors_propagate demoEnvReject demoEnvDown
      demoNow 90 demoNow 90 90 90 3 3
      ["logs-2023.01.01", "logs-2023.06.01"] ExcKind.connectionError rfl rfl⟩

/-- C5: the classifier output is ascending by creation date — whenever entry
`i` has a strictly earlier date than entry `j`, then `i` comes first — and
the per-index loop processes exactly that sequence in order: the names of
the `snapshot.create` calls it issues are a prefix of the classifier
output's names. -/
theorem classifier_sorted_oldest_first_governs_processing
    (names : List String) (now t : Int) (env : ClusterEnv) (maxR : Nat)
    (dthr : Rat) (ctr : Nat) :
    (∀ (i j : Nat) (hi : i < (old_indices_backup_delete names now t).length)
      (hj : j < (old_indices_backup_delete names now t).length),
      ((old_indices_backup_delete names now t).get ⟨i, hi⟩).2 <
        ((old_indices_backup_delete names now t).get ⟨j, hj⟩).2 → i < j) ∧
    (∃ k, createdNames (process_indices env maxR dthr
        (old_indices_backup_delete names now t) ctr) =
      ((old_indices_backup_delete names now t).map Prod.fst).take k) := by
  constructor
  · intro i j hi hj hlt
    have hpw : (old_indices_backup_delete names now t).Pairwise
        (fun x y => x.2 ≤ y.2) := by
      rw [old_indices_backup_delete]
      exact pairwise_sortByDate _
    rw [List.pairwise_iff_get] at hpw
    by_contra hij
    push_neg at hij
    rcases lt_or_eq_of_le hij with hji | hji
    · exact absurd hlt (not_lt.2 (hpw ⟨j, hj⟩ ⟨i, hi⟩ hji))
    · subst hji
      exact lt_irrefl _ hlt
  · exact createdNames_process_indices env maxR dthr _ ctr

/-- C5 (witness): the theorem instantiated at a two-index listing whose
older index is first in the output. -/
theorem classifier_sorted_oldest_first_governs_processing_witness :
    (∀ (i j : Nat)
      (hi : i < (old_indices_backup_delete
        ["logs-2023.06.01", "logs-2023.01.01"] demoNow 90).length)
      (hj : j < (old_indices_backup_delete
        ["logs-2023.06.01", "logs-2023.01.01"] demoNow 90).length),
      ((old_indices_backup_delete
        ["logs-2023.06.01", "logs-2023.01.01"] demoNow 90).get ⟨i, hi⟩).2 <
        ((old_indices_backup_delete
          ["logs-2023.06.01", "logs-2023.01.01"] demoNow 90).get ⟨j, hj⟩).2 →
        i < j) ∧
    (∃ k, createdNames (process_indices demoEnvTimeout 1 90
        (old_indices_backup_delete
          ["logs-2023.06.01", "logs-2023.01.01"] demoNow 90) 1) =
      ((old_indices_backup_delete
        ["logs-2023.06.01", "logs-2023.01.01"] demoNow 90).map
          Prod.fst).take k) :=
  classifier_sorted_oldest_first_governs_processing
    ["logs-2023.06.01", "logs-2023.01.01"] demoNow 90 demoEnvTimeout 1 90 1

/-- C6: when the first terminal state a poll reports is `FAILED` or
`PARTIAL` (at poll number `k`, all earlier polls non-terminal), the wait
loop returns `failed` at once with exactly the polls `0..k` and a sleep
after each non-terminal poll only — nothing after the terminal poll — and
the per-index step issues no delete call for that index. -/
theorem failed_or_partial_poll_stops_immediately_without_delete
    (env : ClusterEnv) (maxR k : Nat) (dthr : Rat) (ctr : Nat)
    (nm : String) (cd : Int)
    (hk : k < maxR)
    (hpre : ∀ i, i < k → env.snapState nm i ≠ "SUCCESS" ∧
      env.snapState nm i ≠ "FAILED" ∧ env.snapState nm i ≠ "PARTIAL")
    (hterm : env.snapState nm k = "FAILED" ∨ env.snapState nm k = "PARTIAL")
    (_hc : env.createSnap nm = Except.ok ()) :
    waitSnapshot (env.snapState nm) nm maxR =
      (WaitResult.failed (env.snapState nm k), failTrace nm 0 k) ∧
    Event.deleteIndex nm ∉ (process_index env maxR dthr ctr (nm, cd)).1 := by
  have hw : waitSnapshot (env.snapState nm) nm maxR =
      (WaitResult.failed (env.snapState nm k), failTrace nm 0 k) := by
    have h := @waitLoop_failed (env.snapState nm) nm k maxR 0 hk
      (fun i hi => by simpa using hpre i hi)
      (by simpa using hterm)
    rw [waitSnapshot, h, Nat.zero_add]
  refine ⟨hw, ?_⟩
  intro hmem
  obtain ⟨-, -, hws⟩ := deleteIndex_mem_process_index hmem
  dsimp only at hws
  rw [hw] at hws
  exact WaitResult.noConfusion hws

/-- C6 (witness): a first poll reporting `PARTIAL` against a budget of three
retries: one poll, no sleep, a `failed` outcome, and no delete call. -/
theorem failed_or_partial_poll_stops_immediately_without_delete_witness :
    (0 : Nat) < 3 ∧
    (demoEnvPartial.snapState "logs-2023.01.01" 0 = "FAILED" ∨
      demoEnvPartial.snapState "logs-2023.01.01" 0 = "PARTIAL") ∧
    demoEnvPartial.createSnap "logs-2023.01.01" = Except.ok () ∧
    (waitSnapshot (demoEnvPartial.snapState "logs-2023.01.01")
        "logs-2023.01.01" 3 =
      (WaitResult.failed (demoEnvPartial.snapState "logs-2023.01.01" 0),
        failTrace "logs-2023.01.01" 0 0) ∧
    Event.deleteIndex "logs-2023.01.01" ∉
      (process_index demoEnvPartial 3 90 1
        ("logs-2023.01.01", dateSeconds ⟨2023, 1, 1⟩)).1) :=
  ⟨by decide, Or.inr rfl, rfl,
    failed_or_partial_poll_stops_immediately_without_delete demoEnvPartial
      3 0 90 1 "logs-2023.01.01" (dateSeconds ⟨2023, 1, 1⟩) (by decide)
      (fun i hi => absurd hi (Nat.not_lt_zero i)) (Or.inr rfl) rfl⟩

/-- C7: a per-index failure on index `A` (create rejected, snapshot failed,
polling timed out, or delete rejected) never aborts the batch: the next
index `B` still gets its `snapshot.create` call in `backup_delete` mode, and
in `delete` mode every listed index gets its `indices.delete` call
regardless of earlier delete outcomes. -/
theorem single_index_failure_does_not_abort_batch (env : ClusterEnv)
    (maxR : Nat) (dthr : Rat) (ctr : Nat) (A B : String × Int)
    (rest : List (String × Int))
    (hfail : perIndexFailure env maxR A.1) :
    Event.snapCreate B.1 ∈
      process_indices env maxR dthr (A :: B :: rest) ctr ∧
    Event.deleteIndex B.1 ∈ delete_indices_loop env (A :: B :: rest) := by
  constructor
  · rw [process_indices, process_index_failure_no_abort hfail]
    exact List.mem_append_right _
      (snapCreate_mem_process_indices_head env maxR dthr ctr B rest)
  · rw [delete_indices_loop_eq]
    exact List.mem_map_of_mem _
      (List.mem_cons_of_mem A (List.mem_cons_self B rest))

/-- C7 (witness): the first index's snapshot request is rejected, and the
second index is still processed. -/
theorem single_index_failure_does_not_abort_batch_witness :
    perIndexFailure demoEnvReject 1 "logs-2023.01.01" ∧
    (Event.snapCreate "logs-2023.06.01" ∈
      process_indices demoEnvReject 1 90
        [("logs-2023.01.01", dateSeconds ⟨2023, 1, 1⟩),
          ("logs-2023.06.01", dateSeconds ⟨2023, 6, 1⟩)] 1 ∧
    Event.deleteIndex "logs-2023.06.01" ∈
      delete_indices_loop demoEnvReject
        [("logs-2023.01.01", dateSeconds ⟨2023, 1, 1⟩),
          ("logs-2023.06.01", dateSeconds ⟨2023, 6, 1⟩)]) :=
  ⟨Or.inl ⟨ExcKind.requestError, rfl⟩,
    single_index_failure_does_not_abort_batch demoEnvReject 1 90 1
      ("logs-2023.01.01", dateSeconds ⟨2023, 1, 1⟩)
      ("logs-2023.06.01", dateSeconds ⟨2023, 6, 1⟩) []
      (Or.inl ⟨ExcKind.requestError, rfl⟩)⟩

/-- C9: the stale-index classification inlined in the two modes is the same
function: on every listing, current time and threshold, the two classifiers
compute the same ordered list. -/
theorem both_modes_share_equivalent_classifier :
    ∀ (names : List String) (now t : Int),
      old_indices_backup_delete names now t =
        old_indices_delete names now t :=
  fun _ _ _ => rfl

/-- C9 (witness): the two classifiers agree on a concrete mixed listing. -/
theorem both_modes_share_equivalent_classifier_witness :
    old_indices_backup_delete
        ["logs-2023.06.01", "logs-2023.01.01", "metrics-bad-name"]
        demoNow 90 =
      old_indices_delete
        ["logs-2023.06.01", "logs-2023.01.01", "metrics-bad-name"]
        demoNow 90 :=
  both_modes_share_equivalent_classifier
    ["logs-2023.06.01", "logs-2023.01.01", "metrics-bad-name"] demoNow 90

/-- C10: with `snapshot_max_retries = 0` the wait loop performs zero polls
and returns `timedOut` whatever the reported states are, so a
`backup_delete` run issues no poll and no delete at all — no index is ever
deleted. -/
theorem zero_retry_budget_no_polls_no_deletes (env : ClusterEnv)
    (now t : Int) (dthr : Rat) (st : Nat → String) (nm : String) :
    waitSnapshot st nm 0 = (WaitResult.timedOut, []) ∧
    (∀ n k, Event.snapPoll n k ∉
      (list_backup_delete_old_indices env now t dthr 0).1) ∧
    (∀ n, Event.deleteIndex n ∉
      (list_backup_delete_old_indices env now t dthr 0).1) := by
  refine ⟨rfl, ?_, ?_⟩
  · intro n k
    rw [list_backup_delete_old_indices]
    cases env.getAlias with
    | error e => exact List.not_mem_nil _
    | ok names =>
      dsimp only
      split
      · intro hmem
        have h2 : Event.snapPoll n k ∈
            [Event.checkDisk (env.diskSample 0)] := hmem
        rw [List.mem_singleton] at h2
        exact Event.noConfusion h2
      · intro hmem
        have h2 : Event.snapPoll n k ∈ Event.checkDisk (env.diskSample 0) ::
            process_indices env 0 dthr
              (old_indices_backup_delete names now t) 1 := hmem
        rcases List.mem_cons.1 h2 with h3 | h3
        · exact Event.noConfusion h3
        · rw [process_indices_zero_retries] at h3
          rcases List.mem_map.1 h3 with ⟨p, -, hpe⟩
          exact Event.noConfusion hpe
  · intro n
    rw [list_backup_delete_old_indices]
    cases env.getAlias with
    | error e => exact List.not_mem_nil _
    | ok names =>
      dsimp only
      split
      · intro hmem
        have h2 : Event.deleteIndex n ∈
            [Event.checkDisk (env.diskSample 0)] := hmem
        rw [List.mem_singleton] at h2
        exact Event.noConfusion h2
      · intro hmem
        have h2 : Event.deleteIndex n ∈ Event.checkDisk (env.diskSample 0) ::
            process_indices env 0 dthr
              (old_indices_backup_delete names now t) 1 := hmem
        rcases List.mem_cons.1 h2 with h3 | h3
        · exact Event.noConfusion h3
        · rw [process_indices_zero_retries] at h3
          rcases List.mem_map.1 h3 with ⟨p, -, hpe⟩
          exact Event.noConfusion hpe

/-- C10 (witness): the theorem instantiated at a run whose snapshot would in
fact succeed on the first poll — the index is still not deleted under a zero
budget. -/
theorem zero_retry_budget_no_polls_no_deletes_witness :
    waitSnapshot (demoEnvMixed.snapState "logs-2023.01.01")
        "logs-2023.01.01" 0 = (WaitResult.timedOut, []) ∧
    (∀ n k, Event.snapPoll n k ∉
      (list_backup_delete_old_indices demoEnvMixed demoNow 90 90 0).1) ∧
    (∀ n, Event.deleteIndex n ∉
      (list_backup_delete_old_indices demoEnvMixed demoNow 90 90 0).1) :=
  zero_retry_budget_no_polls_no_deletes demoEnvMixed demoNow 90 90
    (demoEnvMixed.snapState "logs-2023.01.01") "logs-2023.01.01"

end Backuper

example : Backuper.lastToken "logs-2023.01.01" = "2023.01.01" := by decide

example : Backuper.parseDateToken "2023.01.01" =
    some ⟨2023, 1, 1⟩ := by decide

example : Backuper.parseDateToken "bad-name" = none := by decide

example : Backuper.parseDateToken "2023.02.29" = none := by decide

example : Backuper.parseDateToken "2024.02.29" = some ⟨2024, 2, 29⟩ := by decide

example : Backuper.daysFromCivil ⟨1970, 1, 1⟩ = 0 := by decide

example : Backuper.daysFromCivil ⟨2024, 1, 1⟩ = 19723 := by decide

example : Backuper.daysFromCivil ⟨2023, 1, 1⟩ = 19358 := by decide

example : Backuper.parseDateToken "999.01.01" = none := by decide

example : Backuper.parseDateToken "99.01.01" = none := by decide

example : Backuper.parseDateToken "0999.01.01" = some ⟨999, 1, 1⟩ := by decide

example : Backuper.parseDateToken "0000.01.01" = none := by decide

example : Backuper.parseDateToken "2023.1.1" = some ⟨2023, 1, 1⟩ := by decide

example : Backuper.parseDateToken "2023.01. 5" = some ⟨2023, 1, 5⟩ := by decide

example : Backuper.parseDateToken "2023.13.01" = none := by decide

example : Backuper.parseDateToken "2023.00.01" = none := by decide

example : Backuper.parseDateToken "2023.01.00" = none := by decide

example : Backuper.parseDateToken "2023.01.32" = none := by decide
